import Mathlib

/-!
Shallow embedding of the session-based authentication and token-lifecycle
core of the speecher backend (`JwtTokenService`, `AuthGuard`,
`AuthController.signOut` / `AuthService.signOut`).

Modelling conventions:
* JWTs are opaque strings in the source; here a token is a record carrying
  its decoded payload, the secret it was signed with, its absolute expiry
  instant (the `exp` claim) and its issuance instant (the `iat` claim).
  `jwt.verify` succeeds iff the secret matches and the token is unexpired;
  `jwt.decode` never checks the signature.
* Time is an absolute instant in milliseconds (a `Nat`); JS `Date`
  calendar arithmetic (`setSeconds` etc.) is modelled as addition of the
  equivalent number of milliseconds.
* SHA-256 (`hashToken`) is modelled as an arbitrary function
  `Token → String` passed as a parameter, so that both the ordinary case
  and contrived hash collisions can be expressed.
* The Prisma database is a record of session rows and user rows; `findUnique`
  on a composite key is `List.find?`; `deleteMany` is a filter.
* Thrown exceptions are `Except Err`; `Err.rawError` stands for a plain
  `Error` (which is not an `AppException` and so is converted to
  `InternalServerException` by the service-level catch blocks).
-/

inductive UserRole
  | ADMIN
  | CUSTOMER
deriving DecidableEq, Repr

inductive TokenType
  | access
  | refresh
deriving DecidableEq, Repr

/-- The claims carried by both token kinds (`JwtPayload` in `jwt.service.ts`). -/
structure JwtPayload where
  userId : String
  email : String
  type : TokenType
  role : UserRole
deriving DecidableEq, Repr

/-- A signed JWT: payload plus signature/expiry metadata. -/
structure Token where
  payload : JwtPayload
  signedWith : String
  expMs : Nat
  iat : Nat
deriving DecidableEq, Repr

/-- A row of the `Session` table. `token` and `refreshToken` hold hashes. -/
structure Session where
  id : Nat
  userId : String
  token : String
  refreshToken : String
  expiresAt : Nat
  refreshExpiresAt : Nat
  lastUsedAt : Nat
deriving DecidableEq, Repr

/-- The fields of the `User` row that the auth core reads. -/
structure User where
  id : String
  email : String
  role : UserRole
deriving DecidableEq, Repr

/-- The Prisma database as seen by the auth core. -/
structure DB where
  sessions : List Session
  users : List User
  nextId : Nat
deriving DecidableEq, Repr

/-- The configuration values the auth core reads; `""` models an unset
value (JS `configService.get(...) || default` treats it as falsy). -/
structure Config where
  jwtSecret : String
  jwtRefreshSecret : String
  accessTokenExpiry : String
  refreshTokenExpiry : String
deriving DecidableEq, Repr

/-- Thrown exceptions. All variants but `rawError` are `AppException`s. -/
inductive Err
  | unauthorized
  | sessionExpired
  | tokenExpired (kind : TokenType)
  | internal
  | rawError
deriving DecidableEq, Repr

/-- Whether a thrown error is an `AppException` (rethrown unchanged by the
service catch blocks; anything else becomes `InternalServerException`). -/
def Err.isAppException : Err → Bool
  | .rawError => false
  | _ => true

/-- JS `x || d` on a configuration string. -/
def orDefault (s d : String) : String := if s = "" then d else s

/-- The regex `^(\d+)([smhd])$`: the numeric value and the unit character,
or `none` when the string does not match. -/
def expiryMatch (s : String) : Option (Nat × Char) :=
  match s.toList.reverse with
  | [] => none
  | u :: rest =>
    let digits := rest.reverse
    if (u == 's' || u == 'm' || u == 'h' || u == 'd')
        && !digits.isEmpty && digits.all (fun c => c.isDigit) then
      some (digits.foldl (fun a c => a * 10 + (c.toNat - 48)) 0, u)
    else none

/-- Milliseconds per expiry unit. -/
def unitToMs (u : Char) : Nat :=
  if u == 's' then 1000
  else if u == 'm' then 60 * 1000
  else if u == 'h' then 60 * 60 * 1000
  else 24 * 60 * 60 * 1000

/-- `JwtTokenService.parseExpiry`: absolute expiry instant from `now`, or a
thrown plain `Error` (`rawError`) when the format is invalid. -/
def parseExpiry (now : Nat) (expiry : String) : Except Err Nat :=
  match expiryMatch expiry with
  | none => .error .rawError
  | some (v, u) => .ok (now + v * unitToMs u)

/-- `AuthGuard.parseExpiryToMs` (also `AuthController.parseExpiryToMs`): a
relative duration in milliseconds, falling back to 15 minutes on any
string that does not match the pattern. -/
def parseExpiryToMs (expiry : String) : Nat :=
  match expiryMatch expiry with
  | none => 15 * 60 * 1000
  | some (v, u) => v * unitToMs u

/-- What `JwtTokenService.generateTokens` returns on success. -/
structure TokenPairResult where
  accessToken : Token
  refreshToken : Token
  accessTokenExpiry : Nat
  refreshTokenExpiry : Nat
deriving DecidableEq, Repr

/-- `JwtTokenService.generateTokens`: sign an access and a refresh token
with independent secrets and TTLs, persist a session row holding the two
hashes, and return the pair. An invalid TTL string makes `parseExpiry`
(and `jwt.sign` itself) throw a plain `Error`, outside the try block. -/
def generateTokens (hash : Token → String) (cfg : Config) (db : DB) (now : Nat)
    (userId email : String) (role : UserRole) : Except Err (TokenPairResult × DB) :=
  let accessExpiry := orDefault cfg.accessTokenExpiry "15m"
  let refreshExpiry := orDefault cfg.refreshTokenExpiry "7d"
  match parseExpiry now accessExpiry, parseExpiry now refreshExpiry with
  | .ok accessTokenExpiry, .ok refreshTokenExpiry =>
    let accessToken : Token :=
      ⟨⟨userId, email, .access, role⟩, cfg.jwtSecret, accessTokenExpiry, now⟩
    let refreshToken : Token :=
      ⟨⟨userId, email, .refresh, role⟩, cfg.jwtRefreshSecret, refreshTokenExpiry, now⟩
    let session : Session :=
      ⟨db.nextId, userId, hash accessToken, hash refreshToken,
        accessTokenExpiry, refreshTokenExpiry, now⟩
    .ok (⟨accessToken, refreshToken, accessTokenExpiry, refreshTokenExpiry⟩,
      ⟨session :: db.sessions, db.users, db.nextId + 1⟩)
  | _, _ => .error .rawError

/-- `JwtTokenService.decodeToken`: parse without verifying signature or
expiry; `null` when the payload is missing a (truthy) `userId`. -/
def decodeToken (t : Token) : Option JwtPayload :=
  if t.payload.userId == "" then none else some t.payload

/-- `session.update({ data: { lastUsedAt: now } })`. -/
def touch (db : DB) (sid : Nat) (now : Nat) : DB :=
  { db with sessions :=
      db.sessions.map (fun s => if s.id == sid then { s with lastUsedAt := now } else s) }

/-- `session.delete({ where: { id } })`. -/
def deleteSession (db : DB) (sid : Nat) : DB :=
  { db with sessions := db.sessions.filter (fun s => !(s.id == sid)) }

/-- `user.findUnique({ where: { id } })`. -/
def findUser (db : DB) (uid : String) : Option User :=
  db.users.find? (fun u => u.id == uid)

/-- `session.findUnique({ where: { userId, token } })` — composite key. -/
def findSessionByAccessHash (db : DB) (uid h : String) : Option Session :=
  db.sessions.find? (fun s => s.userId == uid && s.token == h)

/-- `session.findUnique({ where: { userId, refreshToken } })` — composite key. -/
def findSessionByRefreshHash (db : DB) (uid h : String) : Option Session :=
  db.sessions.find? (fun s => s.userId == uid && s.refreshToken == h)

/-- `JwtTokenService.verifyToken`: full `jwt.verify` against the access
secret, then session lookup by `(userId, hash)`, expiry check and a
`lastUsedAt` touch. The catch block maps JWT signature errors to
`UnauthorizedException` and JWT expiry errors to `TokenExpiredException`. -/
def verifyToken (hash : Token → String) (cfg : Config) (db : DB) (now : Nat)
    (t : Token) : Except Err (JwtPayload × DB) :=
  if !(t.signedWith == cfg.jwtSecret) then .error .unauthorized
  else if t.expMs ≤ now then .error (.tokenExpired .access)
  else
    match findSessionByAccessHash db t.payload.userId (hash t) with
    | none => .error .sessionExpired
    | some session =>
      if session.expiresAt < now then .error .sessionExpired
      else .ok (t.payload, touch db session.id now)

/-- `JwtTokenService.refreshTokens`: `jwt.verify` against the refresh
secret (non-`AppException` failures fall into the catch block, surfacing
as `InternalServerException`), type check, session lookup by
`(userId, refreshToken hash)` with the owning user joined, expiry check,
delete of the old session, then `generateTokens` from the stored user. -/
def refreshTokens (hash : Token → String) (cfg : Config) (db : DB) (now : Nat)
    (rt : Token) : Except Err (TokenPairResult × DB) :=
  if !(rt.signedWith == cfg.jwtRefreshSecret) then .error .internal
  else if rt.expMs ≤ now then .error .internal
  else if !(rt.payload.type == TokenType.refresh) then .error .unauthorized
  else
    match findSessionByRefreshHash db rt.payload.userId (hash rt) with
    | none => .error (.tokenExpired .refresh)
    | some session =>
      if session.refreshExpiresAt < now then .error (.tokenExpired .refresh)
      else
        match findUser db session.userId with
        | none => .error .internal
        | some user =>
          match generateTokens hash cfg (deleteSession db session.id) now
              session.userId user.email user.role with
          | .ok r => .ok r
          | .error e => .error (if e.isAppException then e else .internal)

/-- `JwtTokenService.revokeToken`: `deleteMany({ where: { token: hash } })`
— by access-token hash alone, with no `userId` scoping; returns `true`
even when zero rows matched. -/
def revokeToken (hash : Token → String) (db : DB) (t : Token) : Bool × DB :=
  (true, { db with sessions := db.sessions.filter (fun s => !(s.token == hash t)) })

/-- `JwtTokenService.revokeAllUserTokens`: `deleteMany({ where: { userId } })`. -/
def revokeAllUserTokens (db : DB) (uid : String) : DB :=
  { db with sessions := db.sessions.filter (fun s => !(s.userId == uid)) }

/-- The parts of the HTTP request the guard reads. `headerAuthorization`
holds the bearer value with its `Bearer ` prefix (the first 7 characters)
already stripped, as `extractTokenFromRequest` does with `substring(7)`. -/
structure Request where
  cookieAccessToken : Option Token
  cookieRefreshToken : Option Token
  headerAuthorization : Option Token
  headerRefreshToken : Option Token
  headerClientType : Option String
deriving DecidableEq, Repr

/-- `AuthGuard.extractTokenFromRequest`: start from the cookies; when both
the `Authorization` and `x-refresh-token` headers are present, both values
are overwritten from the headers. -/
def extractTokenFromRequest (req : Request) :
    Option Token × Option Token :=
  let accessToken := req.cookieAccessToken
  let refreshToken := req.cookieRefreshToken
  match req.headerAuthorization, req.headerRefreshToken with
  | some a, some r => (some a, some r)
  | _, _ => (accessToken, refreshToken)

/-- `x-client-type` values treated as web clients by the guard. -/
def isWebClient (req : Request) : Bool :=
  req.headerClientType == some "nextjs-admin" || req.headerClientType == some "expo-web"

/-- What `AuthGuard.canActivate` leaves behind when it allows a request:
the database, the attached `request.user`, whether new auth cookies were
set on the response, and the token pair minted during an in-guard
rotation, when one happened. -/
structure GuardOutcome where
  db : DB
  user : Option User
  cookiesSet : Bool
  newTokens : Option TokenPairResult
deriving DecidableEq, Repr

/-- Lines 189–201 of `AuthGuard.canActivate`: the final denial sequence.
`sessionExpired` wins; then public routes and the `signOut` /
`refreshToken` handlers are allowed with no user attached; all else is
`UnauthorizedException`. -/
def guardDenial (db : DB) (sessionExpired isPublic : Bool) (handler : String) :
    Except Err GuardOutcome :=
  if sessionExpired then .error .sessionExpired
  else if isPublic || handler == "signOut" || handler == "refreshToken" then
    .ok ⟨db, none, false, none⟩
  else .error .unauthorized

/-- Lines 131–187 of `AuthGuard.canActivate`: the refresh attempt. The
refresh token is only *decoded* (no signature or expiry verification);
the session is then looked up by `(userId, refresh hash)`. On a hit with
an unexpired `refreshExpiresAt`, a new pair is minted from the decoded
payload, the new access token is verified, the user attached, cookies set
for web clients, and the old session deleted. On a hit with an expired
`refreshExpiresAt` the dead session is deleted and control falls through
to the denial sequence. -/
def guardRefreshSome (hash : Token → String) (cfg : Config) (req : Request)
    (isPublic : Bool) (handler : String) (db : DB) (now : Nat)
    (rt : Token) (sessionExpired : Bool) : Except Err GuardOutcome :=
  match decodeToken rt with
  | none => guardDenial db sessionExpired isPublic handler
  | some payload =>
    match findSessionByRefreshHash db payload.userId (hash rt) with
    | none => guardDenial db sessionExpired isPublic handler
    | some session =>
      if now < session.refreshExpiresAt then
        match generateTokens hash cfg db now payload.userId payload.email payload.role with
        | .error e => .error e
        | .ok (newTokens, db1) =>
          match verifyToken hash cfg db1 now newTokens.accessToken with
          | .error e => .error e
          | .ok (newPayload, db2) =>
            let user := findUser db2 newPayload.userId
            let db3 := deleteSession db2 session.id
            .ok ⟨db3, user, isWebClient req, some newTokens⟩
      else
        guardDenial (deleteSession db session.id) sessionExpired isPublic handler

/-- Dispatch on the presence of a refresh token (line 131). -/
def guardRefresh (hash : Token → String) (cfg : Config) (req : Request)
    (isPublic : Bool) (handler : String) (db : DB) (now : Nat)
    (rt? : Option Token) (sessionExpired : Bool) : Except Err GuardOutcome :=
  match rt? with
  | none => guardDenial db sessionExpired isPublic handler
  | some rt => guardRefreshSome hash cfg req isPublic handler db now rt sessionExpired

/-- `AuthGuard.canActivate`. The access phase decodes the access token
without verification; public routes return early with a best-effort user;
otherwise the session is looked up by `(userId, access hash)` and, when
live, touched before allowing. A missing or expired session falls through
to the refresh attempt, with `sessionExpired` marking the expired case. -/
def canActivate (hash : Token → String) (cfg : Config) (req : Request)
    (isPublic : Bool) (handler : String) (db : DB) (now : Nat) :
    Except Err GuardOutcome :=
  match extractTokenFromRequest req with
  | (at?, rt?) =>
    match at? with
    | none => guardRefresh hash cfg req isPublic handler db now rt? false
    | some tok =>
      match decodeToken tok with
      | none => guardRefresh hash cfg req isPublic handler db now rt? false
      | some payload =>
        if isPublic then
          .ok ⟨db, findUser db payload.userId, false, none⟩
        else
          match findSessionByAccessHash db payload.userId (hash tok) with
          | none => guardRefresh hash cfg req isPublic handler db now rt? false
          | some session =>
            if session.expiresAt ≤ now then
              guardRefresh hash cfg req isPublic handler db now rt? true
            else
              let db1 := touch db session.id now
              .ok ⟨db1, findUser db1 payload.userId, false, none⟩

/-- `AuthService.signOut`: requires an attached user with a truthy id,
then revokes every session of that user. -/
def signOutService (db : DB) (user : Option User) : Except Err DB :=
  match user with
  | none => .error .unauthorized
  | some u =>
    if u.id == "" then .error .unauthorized
    else .ok (revokeAllUserTokens db u.id)

/-- `AuthController.signOut` (POST /auth/signout): calls the service, then
clears the auth cookies only when `x-client-type` is `nextjs-admin`. On
success the route answers 204; the boolean records whether cookies were
cleared. -/
def signOutController (db : DB) (user : Option User) (clientType : Option String) :
    Except Err (DB × Bool) :=
  (signOutService db user).map (fun db1 => (db1, clientType == some "nextjs-admin"))

/-! ### Concrete instances used by counterexamples and witnesses -/

/-- A standard configuration with the spec's default TTLs. -/
def cfgStd : Config := ⟨"s", "rs", "15m", "7d"⟩

/-- An empty database. -/
def db0 : DB := ⟨[], [], 1⟩

/-- A degenerate hash with a collision on every pair of tokens. -/
def hashConst : Token → String := fun _ => "H"

/-- An injective-on-our-examples concrete model of SHA-256. -/
def hashDemo (t : Token) : String :=
  t.payload.userId ++ ":" ++ t.payload.email ++ ":"
    ++ (if t.payload.type == TokenType.access then "a" else "r") ++ ":"
    ++ toString t.iat ++ ":" ++ toString t.expMs ++ ":" ++ t.signedWith

/-- The pair issued by `generateTokens hashConst cfgStd db0 0 ...`. -/
def resStd6 : TokenPairResult :=
  ⟨⟨⟨"u1", "a@x", .access, .CUSTOMER⟩, "s", 900000, 0⟩,
   ⟨⟨"u1", "a@x", .refresh, .CUSTOMER⟩, "rs", 604800000, 0⟩,
   900000, 604800000⟩

/-- The database state after that issuance. -/
def dbStd6 : DB := ⟨[⟨1, "u1", "H", "H", 900000, 604800000, 0⟩], [], 2⟩

/-! ### Inversion helpers -/

/-- The denial sequence never attaches a user, never sets cookies and
never mints tokens. -/
theorem guardDenial_ok {db : DB} {se pub : Bool} {handler : String}
    {out : GuardOutcome} (h : guardDenial db se pub handler = .ok out) :
    out = ⟨db, none, false, none⟩ := by
  unfold guardDenial at h
  split at h
  · exact Except.noConfusion h
  · split at h
    · exact (Except.ok.inj h).symm
    · exact Except.noConfusion h

/-- Inversion of a successful `generateTokens`: both TTL strings parsed,
and the result and new database have the given shape. -/
theorem generateTokens_ok_inv {hash : Token → String} {cfg : Config} {db : DB}
    {now : Nat} {uid email : String} {role : UserRole}
    {res : TokenPairResult} {db' : DB}
    (h : generateTokens hash cfg db now uid email role = .ok (res, db')) :
    ∃ a b,
      parseExpiry now (orDefault cfg.accessTokenExpiry "15m") = .ok a ∧
      parseExpiry now (orDefault cfg.refreshTokenExpiry "7d") = .ok b ∧
      res = ⟨⟨⟨uid, email, .access, role⟩, cfg.jwtSecret, a, now⟩,
        ⟨⟨uid, email, .refresh, role⟩, cfg.jwtRefreshSecret, b, now⟩, a, b⟩ ∧
      db' = ⟨⟨db.nextId, uid, hash ⟨⟨uid, email, .access, role⟩, cfg.jwtSecret, a, now⟩,
          hash ⟨⟨uid, email, .refresh, role⟩, cfg.jwtRefreshSecret, b, now⟩,
          a, b, now⟩ :: db.sessions, db.users, db.nextId + 1⟩ := by
  simp only [generateTokens] at h
  split at h
  · rename_i a b ha hb
    refine ⟨a, b, ha, hb, ?_, ?_⟩
    · exact ((Prod.mk.injEq ..).mp (Except.ok.inj h)).1.symm
    · exact ((Prod.mk.injEq ..).mp (Except.ok.inj h)).2.symm
  · exact Except.noConfusion h

/-- Inversion of a successful service-level rotation
(`JwtTokenService.refreshTokens`). -/
theorem refreshTokens_ok_inv {hash : Token → String} {cfg : Config} {db : DB}
    {now : Nat} {rt : Token} {res : TokenPairResult} {db' : DB}
    (h : refreshTokens hash cfg db now rt = .ok (res, db')) :
    rt.signedWith = cfg.jwtRefreshSecret ∧ now < rt.expMs ∧
    rt.payload.type = .refresh ∧
    ∃ session user,
      findSessionByRefreshHash db rt.payload.userId (hash rt) = some session ∧
      now ≤ session.refreshExpiresAt ∧
      findUser db session.userId = some user ∧
      generateTokens hash cfg (deleteSession db session.id) now
        session.userId user.email user.role = .ok (res, db') := by
  unfold refreshTokens at h
  split at h
  · exact Except.noConfusion h
  · rename_i h1
    split at h
    · exact Except.noConfusion h
    · rename_i h2
      split at h
      · exact Except.noConfusion h
      · rename_i h3
        split at h
        · exact Except.noConfusion h
        · rename_i session hs
          split at h
          · exact Except.noConfusion h
          · rename_i h4
            split at h
            · exact Except.noConfusion h
            · rename_i user hu
              split at h
              · rename_i pr hg
                refine ⟨?_, ?_, ?_, session, user, hs, ?_, hu, ?_⟩
                · simpa using h1
                · simpa using h2
                · simpa using h3
                · simpa using h4
                · rw [hg, Except.ok.inj h]
              · exact Except.noConfusion h

/-- Inversion of the guard's refresh attempt when it allowed *and* minted
a new pair: the only gates passed are an unverified decode, a composite
`(userId, refresh hash)` session lookup and the session's
`refreshExpiresAt`; the refresh token's signature is never checked. -/
theorem guardRefreshSome_mint_inv {hash : Token → String} {cfg : Config}
    {req : Request} {pub : Bool} {handler : String} {db : DB} {now : Nat}
    {rt : Token} {se : Bool} {out : GuardOutcome}
    (h : guardRefreshSome hash cfg req pub handler db now rt se = .ok out)
    (hm : out.newTokens.isSome = true) :
    ∃ p session,
      decodeToken rt = some p ∧
      findSessionByRefreshHash db p.userId (hash rt) = some session ∧
      now < session.refreshExpiresAt ∧
      ∃ nt db1 np db2,
        generateTokens hash cfg db now p.userId p.email p.role = .ok (nt, db1) ∧
        verifyToken hash cfg db1 now nt.accessToken = .ok (np, db2) ∧
        out = ⟨deleteSession db2 session.id, findUser db2 np.userId,
          isWebClient req, some nt⟩ := by
  unfold guardRefreshSome at h
  split at h
  · rw [guardDenial_ok h] at hm
    exact Bool.noConfusion hm
  · rename_i p hd
    split at h
    · rw [guardDenial_ok h] at hm
      exact Bool.noConfusion hm
    · rename_i session hs
      split at h
      · rename_i hexp
        split at h
        · exact Except.noConfusion h
        · rename_i nt db1 hg
          split at h
          · exact Except.noConfusion h
          · rename_i np db2 hv
            exact ⟨p, session, hd, hs, hexp, nt, db1, np, db2, hg, hv,
              (Except.ok.inj h).symm⟩
      · rw [guardDenial_ok h] at hm
        exact Bool.noConfusion hm

/-! ### C9 — verify after issue round-trip -/

/-- Claim C9: verifying the access token immediately after issuance
succeeds and returns the issuing user's id (given that issuance succeeded
and the configured access TTL has not already elapsed). -/
theorem C9_round_trip (hash : Token → String) (cfg : Config) (db : DB)
    (now : Nat) (uid email : String) (role : UserRole)
    (res : TokenPairResult) (db' : DB)
    (hgen : generateTokens hash cfg db now uid email role = .ok (res, db'))
    (hlive : now < res.accessTokenExpiry) :
    (verifyToken hash cfg db' now res.accessToken).map (fun p => p.1.userId)
      = .ok uid := by
  obtain ⟨a, b, hpa, hpb, hres, hdb⟩ := generateTokens_ok_inv hgen
  subst hres hdb
  have hlive' : now < a := hlive
  simp [verifyToken, findSessionByAccessHash, List.find?,
    Nat.not_le.mpr hlive', Nat.lt_asymm hlive', Except.map]

/-- Witness for C9 at the default configuration. -/
theorem C9_round_trip_witness :
    (verifyToken hashConst cfgStd dbStd6 0 resStd6.accessToken).map
        (fun p => p.1.userId) = .ok "u1" :=
  C9_round_trip hashConst cfgStd db0 0 "u1" "a@x" .CUSTOMER resStd6 dbStd6
    rfl (by norm_num [resStd6])

/-! ### C2 — cookie vs header precedence in `extractTokenFromRequest` -/

def cA2 : Token := ⟨⟨"u1", "a@x", .access, .CUSTOMER⟩, "s", 100, 0⟩
def cR2 : Token := ⟨⟨"u1", "a@x", .refresh, .CUSTOMER⟩, "rs", 100, 0⟩
def hA2 : Token := ⟨⟨"u2", "b@x", .access, .CUSTOMER⟩, "s", 200, 1⟩
def hR2 : Token := ⟨⟨"u2", "b@x", .refresh, .CUSTOMER⟩, "rs", 200, 1⟩

/-- A request carrying both token cookies and both auth headers, with
different values. -/
def reqC2 : Request := ⟨some cA2, some cR2, some hA2, some hR2, none⟩

/-- The same request with the `x-refresh-token` header absent. -/
def reqC2cookies : Request := ⟨some cA2, some cR2, some hA2, none, none⟩

/-- Claim C2 is false: when both the cookies and the header pair are
present, `extractTokenFromRequest` returns the header values, not the
cookie values. -/
theorem C2_counterexample :
    reqC2.cookieAccessToken = some cA2 ∧ reqC2.cookieRefreshToken = some cR2 ∧
    extractTokenFromRequest reqC2 = (some hA2, some hR2) ∧
    hA2 ≠ cA2 ∧ hR2 ≠ cR2 := by
  refine ⟨rfl, rfl, rfl, ?_, ?_⟩ <;> decide

/-- Claim C2 (amended): the `Authorization` bearer + `x-refresh-token`
header pair takes precedence over the cookies when both headers are
present; the cookies are used only when at least one of the two headers
is absent. -/
theorem C2_precedence :
    (∀ (req : Request) (a r : Token), req.headerAuthorization = some a →
      req.headerRefreshToken = some r →
      extractTokenFromRequest req = (some a, some r)) ∧
    (∀ req : Request, req.headerAuthorization = none ∨ req.headerRefreshToken = none →
      extractTokenFromRequest req = (req.cookieAccessToken, req.cookieRefreshToken)) := by
  constructor
  · intro req a r ha hr
    simp [extractTokenFromRequest, ha, hr]
  · intro req h
    unfold extractTokenFromRequest
    cases ha : req.headerAuthorization <;> cases hr : req.headerRefreshToken <;>
      simp_all

/-- Witness for C2: both branches of the precedence theorem at concrete
requests. -/
theorem C2_precedence_witness :
    extractTokenFromRequest reqC2 = (some hA2, some hR2) ∧
    extractTokenFromRequest reqC2cookies
      = (reqC2cookies.cookieAccessToken, reqC2cookies.cookieRefreshToken) :=
  ⟨C2_precedence.1 reqC2 hA2 hR2 rfl rfl,
   C2_precedence.2 reqC2cookies (Or.inr rfl)⟩

/-! ### C3 — composite-key scoping of session lookups and deletions -/

/-- A session belonging to `userA` whose access-token hash is `"H"`. -/
def sessA : Session := ⟨1, "userA", "H", "RH", 1000, 2000, 0⟩

def dbC3 : DB := ⟨[sessA], [⟨"userA", "a@x", .CUSTOMER⟩], 2⟩

/-- A token whose payload belongs to `userB` and which, under the
colliding hash, hashes to `userA`'s stored access hash. -/
def tokB : Token := ⟨⟨"userB", "b@x", .access, .CUSTOMER⟩, "s", 500, 0⟩

/-- Claim C3 is false for deletions: `revokeToken` deletes by access-token
hash alone, so user A's session is deleted by revoking a colliding token
of user B. -/
theorem C3_counterexample :
    sessA.userId = "userA" ∧ tokB.payload.userId = "userB" ∧
    hashConst tokB = sessA.token ∧
    (revokeToken hashConst dbC3 tokB).2.sessions = [] := by
  refine ⟨rfl, rfl, rfl, ?_⟩
  decide

/-- Claim C3 (amended): the session *lookups* used by the guard and the
token-lifecycle reads are scoped by the composite `(userId, hash)` key,
but `revokeToken`'s deletion is by access-token hash alone — it removes
every session whose `token` equals the hash, regardless of owner. -/
theorem C3_scoping (hash : Token → String) (db : DB) (t : Token) :
    ((revokeToken hash db t).2.sessions
        = db.sessions.filter (fun s => !(s.token == hash t))) ∧
    (∀ uid h s, findSessionByAccessHash db uid h = some s →
      s.userId = uid ∧ s.token = h) ∧
    (∀ uid h s, findSessionByRefreshHash db uid h = some s →
      s.userId = uid ∧ s.refreshToken = h) := by
  refine ⟨rfl, ?_, ?_⟩
  · intro uid h s hs
    have := List.find?_some hs
    simp only [Bool.and_eq_true, beq_iff_eq] at this
    exact this
  · intro uid h s hs
    have := List.find?_some hs
    simp only [Bool.and_eq_true, beq_iff_eq] at this
    exact this

/-- Witness for C3: the scoping theorem at a concrete database. -/
theorem C3_scoping_witness :
    (revokeToken hashConst dbC3 tokB).2.sessions
        = dbC3.sessions.filter (fun s => !(s.token == hashConst tokB)) ∧
    sessA.userId = "userA" ∧ sessA.token = "H" :=
  ⟨(C3_scoping hashConst dbC3 tokB).1,
   (C3_scoping hashConst dbC3 tokB).2.1 "userA" "H" sessA (by decide)⟩

/-! ### C5 — expiry parsing: fallback vs throw -/

def cfgBogus : Config := ⟨"s", "rs", "bogus", "7d"⟩

/-- Claim C5 is false: the parser used when issuing tokens
(`JwtTokenService.parseExpiry`) throws a plain `Error` on an invalid
duration string instead of falling back, so `generateTokens` throws. -/
theorem C5_counterexample :
    parseExpiry 0 "bogus" = .error .rawError ∧
    generateTokens hashConst cfgBogus db0 0 "u1" "a@x" .CUSTOMER
      = .error .rawError := by
  constructor <;> rfl

/-- Claim C5 (amended): only the guard/controller cookie-`maxAge` parser
(`parseExpiryToMs`) never throws — it falls back to 15 minutes (for both
the access and the refresh position) on any string that does not match
`^\d+[smhd]$` — while the service parser used when issuing tokens
(`parseExpiry`) throws on such strings. -/
theorem C5_parse_fallback (s : String) (now : Nat) (h : expiryMatch s = none) :
    parseExpiryToMs s = 15 * 60 * 1000 ∧ parseExpiry now s = .error .rawError := by
  constructor <;> simp [parseExpiryToMs, parseExpiry, h]

/-- Witness for C5: the fallback theorem at the concrete string "bogus". -/
theorem C5_parse_fallback_witness :
    expiryMatch "bogus" = none ∧
    (parseExpiryToMs "bogus" = 15 * 60 * 1000 ∧
      parseExpiry 0 "bogus" = .error .rawError) :=
  ⟨rfl, C5_parse_fallback "bogus" 0 rfl⟩

/-! ### C6 — expiry ordering of issued pairs -/

/-- A configuration whose access TTL exceeds its refresh TTL. -/
def cfgC6 : Config := ⟨"s", "rs", "2h", "1h"⟩

/-- Claim C6 is false: with access TTL `2h` and refresh TTL `1h`, the
issued pair and its persisted session have
`expiresAt = 7200000 > 3600000 = refreshExpiresAt`. -/
theorem C6_counterexample :
    (generateTokens hashConst cfgC6 db0 0 "u1" "a@x" .CUSTOMER).map
        (fun p => (p.1.accessTokenExpiry, p.1.refreshTokenExpiry,
          p.2.sessions.map (fun s => (s.expiresAt, s.refreshExpiresAt))))
      = .ok (7200000, 3600000, [(7200000, 3600000)]) ∧
    (3600000 : Nat) < 7200000 := by
  constructor
  · rfl
  · decide

/-- Claim C6 (amended): the expiry ordering `expiresAt ≤ refreshExpiresAt`
holds for an issued pair exactly when the configured access duration does
not exceed the refresh duration (as with the defaults `15m`/`7d`); the
code itself does not enforce the ordering. -/
theorem C6_expiry_ordering (hash : Token → String) (cfg : Config) (db : DB)
    (now : Nat) (uid email : String) (role : UserRole)
    (res : TokenPairResult) (db' : DB) (a b : Nat)
    (ha : parseExpiry now (orDefault cfg.accessTokenExpiry "15m") = .ok a)
    (hb : parseExpiry now (orDefault cfg.refreshTokenExpiry "7d") = .ok b)
    (hab : a ≤ b)
    (hgen : generateTokens hash cfg db now uid email role = .ok (res, db')) :
    res.accessTokenExpiry ≤ res.refreshTokenExpiry ∧
    db'.sessions.head?.map (fun s => (s.expiresAt, s.refreshExpiresAt))
      = some (res.accessTokenExpiry, res.refreshTokenExpiry) := by
  simp only [generateTokens, ha, hb, Except.ok.injEq, Prod.mk.injEq] at hgen
  obtain ⟨hres, hdb⟩ := hgen
  subst hres hdb
  simpa using hab

/-- Witness for C6: the ordering theorem at the default TTL configuration. -/
theorem C6_expiry_ordering_witness :
    resStd6.accessTokenExpiry ≤ resStd6.refreshTokenExpiry ∧
    dbStd6.sessions.head?.map (fun s => (s.expiresAt, s.refreshExpiresAt))
      = some (resStd6.accessTokenExpiry, resStd6.refreshTokenExpiry) :=
  C6_expiry_ordering hashConst cfgStd db0 0 "u1" "a@x" .CUSTOMER
    resStd6 dbStd6 900000 604800000 rfl rfl (by norm_num) rfl

/-! ### C8 — sign-out reachability and idempotence -/

/-- Claim C8 is false: a sign-out request with no authenticated user fails
with `UnauthorizedException` instead of completing with 204. -/
theorem C8_counterexample :
    signOutController db0 none (some "nextjs-admin") = .error .unauthorized := rfl

/-- Claim C8 (amended): sign-out completes (204) only when a user with a
truthy id is attached to the request; it then revokes all of that user's
sessions, and clears the auth cookies only for the `nextjs-admin` client
type (not for other web clients); with no attached user it fails with
`UnauthorizedException`. -/
theorem C8_signout (db : DB) (u : User) (ct : Option String) (h : u.id ≠ "") :
    signOutController db (some u) ct
      = .ok (revokeAllUserTokens db u.id, ct == some "nextjs-admin") ∧
    signOutController db none ct = .error .unauthorized := by
  constructor
  · simp [signOutController, signOutService, h, Except.map]
  · rfl

/-- Witness for C8: the amended sign-out behaviour at a concrete user and
an `expo-web` client. -/
theorem C8_signout_witness :
    signOutController dbC3 (some ⟨"userA", "a@x", .CUSTOMER⟩) (some "expo-web")
      = .ok (revokeAllUserTokens dbC3 "userA",
          (some "expo-web" : Option String) == some "nextjs-admin") ∧
    signOutController dbC3 none (some "expo-web") = .error .unauthorized :=
  C8_signout dbC3 ⟨"userA", "a@x", .CUSTOMER⟩ (some "expo-web") (by decide)

/-! ### C7 — denial precedence in the guard -/

/-- Claim C7: denial follows the fixed precedence — when the access
token's backing session is expired (and no refresh token rescues the
request) the guard fails with `SessionExpired` even for the sign-out or
refresh handler; with no credentials at all, public routes and the
`signOut` / `refreshToken` handlers are allowed with no user attached and
everything else fails with `Unauthorized`. -/
theorem C7_denial_precedence :
    (∀ (hash : Token → String) (cfg : Config) (req : Request) (handler : String)
        (db : DB) (now : Nat) (tok : Token) (p : JwtPayload) (s : Session),
      extractTokenFromRequest req = (some tok, none) →
      decodeToken tok = some p →
      findSessionByAccessHash db p.userId (hash tok) = some s →
      s.expiresAt ≤ now →
      canActivate hash cfg req false handler db now = .error .sessionExpired) ∧
    (∀ (hash : Token → String) (cfg : Config) (req : Request) (pub : Bool)
        (handler : String) (db : DB) (now : Nat),
      extractTokenFromRequest req = (none, none) →
      canActivate hash cfg req pub handler db now
        = if pub || handler == "signOut" || handler == "refreshToken"
            then .ok ⟨db, none, false, none⟩ else .error .unauthorized) := by
  constructor
  · intro hash cfg req handler db now tok p s hx hd hf hexp
    simp only [canActivate, hx, hd, hf]
    simp [guardRefresh, guardDenial, hexp]
  · intro hash cfg req pub handler db now hx
    simp only [canActivate, hx, guardRefresh, guardDenial]
    cases hpb : (pub || handler == "signOut" || handler == "refreshToken") <;>
      simp [hpb]

def atC7 : Token := ⟨⟨"u1", "a@x", .access, .CUSTOMER⟩, "s", 10000, 0⟩
def dbC7 : DB := ⟨[⟨1, "u1", "H", "RH", 500, 2000, 0⟩], [⟨"u1", "a@x", .CUSTOMER⟩], 2⟩
def reqC7 : Request := ⟨some atC7, none, none, none, none⟩
def reqEmpty : Request := ⟨none, none, none, none, none⟩

/-- Witness for C7: an expired session beats the sign-out allowance; with
no credentials the sign-out handler is allowed and other handlers are
denied. -/
theorem C7_denial_precedence_witness :
    canActivate hashConst cfgStd reqC7 false "signOut" dbC7 600
      = .error .sessionExpired ∧
    canActivate hashConst cfgStd reqEmpty false "signOut" db0 0
      = .ok ⟨db0, none, false, none⟩ ∧
    canActivate hashConst cfgStd reqEmpty false "other" db0 0
      = .error .unauthorized :=
  ⟨C7_denial_precedence.1 hashConst cfgStd reqC7 "signOut" dbC7 600 atC7
      ⟨"u1", "a@x", .access, .CUSTOMER⟩ ⟨1, "u1", "H", "RH", 500, 2000, 0⟩
      rfl rfl rfl (by decide),
   C7_denial_precedence.2 hashConst cfgStd reqEmpty false "signOut" db0 0 rfl,
   C7_denial_precedence.2 hashConst cfgStd reqEmpty false "other" db0 0 rfl⟩

/-! ### C4 — single-use refresh tokens -/

/-- The database invariant behind the composite unique key
`(userId, refreshToken)` of the `Session` table. -/
def uniqueRefreshKeys (db : DB) : Prop :=
  ∀ s1 ∈ db.sessions, ∀ s2 ∈ db.sessions,
    s1.userId = s2.userId → s1.refreshToken = s2.refreshToken → s1.id = s2.id

/-- Claim C4: refresh tokens are single-use. After a successful rotation
the old session is gone, so rotating the same original refresh token
again (while its JWT is still unexpired, hence past the signature check)
fails with the refresh-variant `TokenExpiredException` and mints nothing.
Hypotheses: the composite `(userId, refreshToken)` key is unique in the
pre-state, and the newly minted refresh token does not hash-collide with
the old one. -/
theorem C4_single_use (hash : Token → String) (cfg : Config) (db : DB)
    (now now2 : Nat) (rt : Token) (res : TokenPairResult) (db' : DB)
    (huniq : uniqueRefreshKeys db)
    (hrot : refreshTokens hash cfg db now rt = .ok (res, db'))
    (hjwt : now2 < rt.expMs)
    (hhash : hash res.refreshToken ≠ hash rt) :
    refreshTokens hash cfg db' now2 rt = .error (.tokenExpired .refresh) := by
  obtain ⟨hsig, hnow, htype, session, user, hs, hexp, hu, hgen⟩ :=
    refreshTokens_ok_inv hrot
  have hsmem : session ∈ db.sessions := List.mem_of_find?_eq_some hs
  have hspred := List.find?_some hs
  simp only [Bool.and_eq_true, beq_iff_eq] at hspred
  obtain ⟨a, b, hpa, hpb, hres, hdb⟩ := generateTokens_ok_inv hgen
  have hfind : findSessionByRefreshHash db' rt.payload.userId (hash rt) = none := by
    subst hdb
    unfold findSessionByRefreshHash
    apply List.find?_eq_none.mpr
    intro x hx
    simp only [List.mem_cons] at hx
    rcases hx with rfl | hx
    · intro hp
      simp only [Bool.and_eq_true, beq_iff_eq] at hp
      apply hhash
      rw [hres]
      exact hp.2
    · simp only [deleteSession, List.mem_filter, Bool.not_eq_eq_eq_not,
        Bool.not_true, beq_eq_false_iff_ne, ne_eq] at hx
      intro hp
      simp only [Bool.and_eq_true, beq_iff_eq] at hp
      exact hx.2 (huniq x hx.1 session hsmem (hp.1.trans hspred.1.symm)
        (hp.2.trans hspred.2.symm))
  unfold refreshTokens
  simp [hsig, Nat.not_le.mpr hjwt, htype, hfind]

def rtC4 : Token := ⟨⟨"u1", "a@x", .refresh, .CUSTOMER⟩, "rs", 604800000, 0⟩
def atC4 : Token := ⟨⟨"u1", "a@x", .access, .CUSTOMER⟩, "s", 900000, 0⟩
def dbC4 : DB :=
  ⟨[⟨1, "u1", hashDemo atC4, hashDemo rtC4, 900000, 604800000, 0⟩],
   [⟨"u1", "a@x", .CUSTOMER⟩], 2⟩
def accC4 : Token := ⟨⟨"u1", "a@x", .access, .CUSTOMER⟩, "s", 901000, 1000⟩
def refC4 : Token := ⟨⟨"u1", "a@x", .refresh, .CUSTOMER⟩, "rs", 604801000, 1000⟩
def resC4 : TokenPairResult := ⟨accC4, refC4, 901000, 604801000⟩
def dbC4' : DB :=
  ⟨[⟨2, "u1", hashDemo accC4, hashDemo refC4, 901000, 604801000, 1000⟩],
   [⟨"u1", "a@x", .CUSTOMER⟩], 3⟩

/-- Witness for C4: a concrete rotation at t=1000ms, then the same
original refresh token is rejected. -/
theorem C4_single_use_witness :
    refreshTokens hashDemo cfgStd dbC4' 1000 rtC4
      = .error (.tokenExpired .refresh) :=
  C4_single_use hashDemo cfgStd dbC4 1000 1000 rtC4 resC4 dbC4'
    (by unfold uniqueRefreshKeys; decide) rfl (by decide) (by decide)

/-! ### C1 — guard refresh path: decode, not verify -/

/-- A refresh token signed with a secret that is not the configured
refresh secret, so its signature does not verify. -/
def rtC1 : Token := ⟨⟨"u1", "a@x", .refresh, .CUSTOMER⟩, "old-secret", 999999, 0⟩

/-- A database holding a session whose stored refresh hash is the hash of
that very token (e.g. a session persisted before a secret rotation). -/
def dbC1 : DB :=
  ⟨[⟨1, "u1", "X", hashDemo rtC1, 0, 999999, 0⟩], [⟨"u1", "a@x", .CUSTOMER⟩], 2⟩

def reqC1 : Request := ⟨none, some rtC1, none, none, none⟩
def accC1 : Token := ⟨⟨"u1", "a@x", .access, .CUSTOMER⟩, "s", 901000, 1000⟩
def refC1 : Token := ⟨⟨"u1", "a@x", .refresh, .CUSTOMER⟩, "rs", 604801000, 1000⟩
def ntC1 : TokenPairResult := ⟨accC1, refC1, 901000, 604801000⟩

/-- The guard outcome: allowed, user attached, tokens rotated. -/
def outC1 : GuardOutcome :=
  ⟨⟨[⟨2, "u1", hashDemo accC1, hashDemo refC1, 901000, 604801000, 1000⟩],
    [⟨"u1", "a@x", .CUSTOMER⟩], 3⟩,
   some ⟨"u1", "a@x", .CUSTOMER⟩, false, some ntC1⟩

/-- Claim C1 is false: the guard's refresh path never verifies the
refresh token's signature — a token whose signature does not verify
(signed with `old-secret`, not the configured refresh secret) is decoded,
looked up by hash, and leads to an allow that mints a fresh pair. -/
theorem C1_counterexample :
    rtC1.signedWith ≠ cfgStd.jwtRefreshSecret ∧
    canActivate hashDemo cfgStd reqC1 false "other" dbC1 1000 = .ok outC1 ∧
    outC1.newTokens = some ntC1 :=
  ⟨by decide, rfl, rfl⟩

/-- Claim C1 (amended): before the session lookup the guard only
*decodes* the refresh token (no cryptographic signature or expiry
verification); whenever the refresh path allows and mints tokens, the
only gates passed are a decodable payload with a truthy `userId`, a
session matching the composite `(userId, refresh-token hash)` key, and
an unexpired `refreshExpiresAt` — so a refresh token with an invalid
signature whose hash is stored can still lead to an allow. -/
theorem C1_refresh_gates (hash : Token → String) (cfg : Config) (req : Request)
    (pub : Bool) (handler : String) (db : DB) (now : Nat) (rt : Token)
    (out : GuardOutcome)
    (hx : extractTokenFromRequest req = (none, some rt))
    (hca : canActivate hash cfg req pub handler db now = .ok out)
    (hmint : out.newTokens.isSome = true) :
    rt.payload.userId ≠ "" ∧
    ∃ s, findSessionByRefreshHash db rt.payload.userId (hash rt) = some s ∧
      now < s.refreshExpiresAt := by
  simp only [canActivate, hx, guardRefresh] at hca
  obtain ⟨p, s, hd, hs, hexp, -⟩ := guardRefreshSome_mint_inv hca hmint
  unfold decodeToken at hd
  by_cases hid : rt.payload.userId == ""
  · rw [if_pos hid] at hd
    exact Option.noConfusion hd
  · rw [if_neg hid] at hd
    obtain rfl := Option.some.inj hd
    exact ⟨by simpa using hid, s, hs, hexp⟩

/-- Witness for C1: the gates theorem at the forged-token scenario. -/
theorem C1_refresh_gates_witness :
    rtC1.payload.userId ≠ "" ∧
    ∃ s, findSessionByRefreshHash dbC1 rtC1.payload.userId (hashDemo rtC1) = some s ∧
      1000 < s.refreshExpiresAt :=
  C1_refresh_gates hashDemo cfgStd reqC1 false "other" dbC1 1000 rtC1 outC1
    rfl rfl rfl

/-! ### C10 — claim source during rotation: token payload vs stored user -/

/-- Claim C10: an in-guard rotation copies `userId`, `email` and `role`
into the new pair from the *decoded old refresh token*, while the
service-level `refreshTokens` reads `email` and `role` from the *stored
user row* joined to the session — so database changes persist in
service-minted tokens but not in gateway-minted ones. -/
theorem C10_rotation_claims_source :
    (∀ (hash : Token → String) (cfg : Config) (req : Request) (pub : Bool)
        (handler : String) (db : DB) (now : Nat) (rt : Token) (p : JwtPayload)
        (out : GuardOutcome) (nt : TokenPairResult),
      extractTokenFromRequest req = (none, some rt) →
      decodeToken rt = some p →
      canActivate hash cfg req pub handler db now = .ok out →
      out.newTokens = some nt →
      nt.accessToken.payload = ⟨p.userId, p.email, .access, p.role⟩ ∧
      nt.refreshToken.payload = ⟨p.userId, p.email, .refresh, p.role⟩) ∧
    (∀ (hash : Token → String) (cfg : Config) (db : DB) (now : Nat) (rt : Token)
        (res : TokenPairResult) (db' : DB) (s : Session) (u : User),
      refreshTokens hash cfg db now rt = .ok (res, db') →
      findSessionByRefreshHash db rt.payload.userId (hash rt) = some s →
      findUser db s.userId = some u →
      res.accessToken.payload = ⟨s.userId, u.email, .access, u.role⟩ ∧
      res.refreshToken.payload = ⟨s.userId, u.email, .refresh, u.role⟩) := by
  constructor
  · intro hash cfg req pub handler db now rt p out nt hx hd hca hnt
    simp only [canActivate, hx, guardRefresh] at hca
    obtain ⟨p', s, hd', hs, hexp, nt', db1, np, db2, hg, hv, hout⟩ :=
      guardRefreshSome_mint_inv hca (by rw [hnt]; rfl)
    obtain rfl : p' = p := Option.some.inj (hd'.symm.trans hd)
    obtain rfl : nt' = nt := by
      rw [hout] at hnt
      exact Option.some.inj hnt
    obtain ⟨a, b, hpa, hpb, hres, hdb⟩ := generateTokens_ok_inv hg
    subst hres
    exact ⟨rfl, rfl⟩
  · intro hash cfg db now rt res db' s u hrot hs hu
    obtain ⟨hsig, hnow, htype, session, user, hs', hexp, hu', hgen⟩ :=
      refreshTokens_ok_inv hrot
    obtain rfl : session = s := Option.some.inj (hs'.symm.trans hs)
    obtain rfl : user = u := Option.some.inj (hu'.symm.trans hu)
    obtain ⟨a, b, hpa, hpb, hres, hdb⟩ := generateTokens_ok_inv hgen
    subst hres
    exact ⟨rfl, rfl⟩

/-- The old refresh token carries the stale claims `old@x` / CUSTOMER. -/
def rt10 : Token := ⟨⟨"u1", "old@x", .refresh, .CUSTOMER⟩, "rs", 999999, 0⟩
def sess10 : Session := ⟨1, "u1", "X", hashDemo rt10, 0, 999999, 0⟩

/-- The stored user row was updated since issuance: `new@x` / ADMIN. -/
def user10 : User := ⟨"u1", "new@x", .ADMIN⟩
def dbC10 : DB := ⟨[sess10], [user10], 2⟩
def req10 : Request := ⟨none, some rt10, none, none, none⟩

/-- The guard-minted pair: stale claims from the token. -/
def ntg10 : TokenPairResult :=
  ⟨⟨⟨"u1", "old@x", .access, .CUSTOMER⟩, "s", 901000, 1000⟩,
   ⟨⟨"u1", "old@x", .refresh, .CUSTOMER⟩, "rs", 604801000, 1000⟩,
   901000, 604801000⟩

def out10 : GuardOutcome :=
  ⟨⟨[⟨2, "u1", hashDemo ntg10.accessToken, hashDemo ntg10.refreshToken,
      901000, 604801000, 1000⟩], [user10], 3⟩,
   some user10, false, some ntg10⟩

/-- The service-minted pair: fresh claims from the stored user. -/
def nts10 : TokenPairResult :=
  ⟨⟨⟨"u1", "new@x", .access, .ADMIN⟩, "s", 901000, 1000⟩,
   ⟨⟨"u1", "new@x", .refresh, .ADMIN⟩, "rs", 604801000, 1000⟩,
   901000, 604801000⟩

def db10' : DB :=
  ⟨[⟨2, "u1", hashDemo nts10.accessToken, hashDemo nts10.refreshToken,
      901000, 604801000, 1000⟩], [user10], 3⟩

/-- Witness for C10: with the same database, the guard mints from the old
token's claims while the service mints from the updated user row. -/
theorem C10_rotation_claims_source_witness :
    (ntg10.accessToken.payload = ⟨"u1", "old@x", .access, .CUSTOMER⟩ ∧
     ntg10.refreshToken.payload = ⟨"u1", "old@x", .refresh, .CUSTOMER⟩) ∧
    (nts10.accessToken.payload = ⟨"u1", "new@x", .access, .ADMIN⟩ ∧
     nts10.refreshToken.payload = ⟨"u1", "new@x", .refresh, .ADMIN⟩) :=
  ⟨C10_rotation_claims_source.1 hashDemo cfgStd req10 false "other" dbC10 1000
      rt10 rt10.payload out10 ntg10 rfl rfl rfl rfl,
   C10_rotation_claims_source.2 hashDemo cfgStd dbC10 1000 rt10 nts10 db10'
      sess10 user10 rfl rfl rfl⟩

